import Mathlib

/-
Verification of the business rules of the Scout-Inventory-Management
point-of-sale application (src/app.py) against its specification.

Modelling conventions:
* Python decimal/float money amounts are modelled as rationals (ℚ);
  all the verified rules are order/arithmetic comparisons, where ℚ is a
  faithful model of the intended decimal arithmetic.
* Python dict rows are modelled as Lean structures with the same field
  names; Python lists as Lean lists.
* `datetime.now()` values are passed in as explicit string parameters.
* The Supabase client is external to the repository; a table write is
  modelled as the corresponding pure change to a list of rows.
-/

namespace ScoutInventory

/-- Arabic status string returned by `determine_payment_status` for a
fully paid invoice (src/app.py line 502). -/
def fullyPaidStatus : String := "مدفوعة"

/-- Arabic status string for a partially paid invoice (src/app.py line 504). -/
def partiallyPaidStatus : String := "مدفوعة جزئياً"

/-- Arabic status string for an unpaid invoice (src/app.py line 506). -/
def unpaidStatus : String := "غير مدفوعة"

/-- `determine_payment_status` from src/app.py lines 499-506:
`if paid_amount >= total_amount: fully-paid; elif paid_amount > 0:
partially-paid; else: unpaid`. -/
def determine_payment_status (total_amount paid_amount : ℚ) : String :=
  if paid_amount ≥ total_amount then fullyPaidStatus
  else if paid_amount > 0 then partiallyPaidStatus
  else unpaidStatus

/-- A cart line item as built by the Add-to-Cart handler
(src/app.py lines 1264-1268): product name snapshot, unit price snapshot,
integer quantity. -/
structure CartItem where
  product : String
  price : ℚ
  quantity : ℕ
deriving DecidableEq

/-- The invoice total computed inside `generate_whatsapp_invoice_text`
(src/app.py line 460): `sum(item['quantity'] * item['price'] for item in
cart_items)`.  The surrounding string formatting of the WhatsApp message
is presentation only and carries no further arithmetic. -/
def generate_whatsapp_invoice_total (cart_items : List CartItem) : ℚ :=
  (cart_items.map (fun item => (item.quantity : ℚ) * item.price)).sum

/-- The displayed invoice total computed in `main_app`
(src/app.py line 1297): `sum(item['price'] * item['quantity'] for item in
st.session_state.cart)`. -/
def main_app_total (cart : List CartItem) : ℚ :=
  (cart.map (fun item => item.price * (item.quantity : ℚ))).sum

/-- A customer row (src/app.py lines 1133-1141). -/
structure Customer where
  id : ℕ
  name : String
  phone : String
  email : String
  address : String
  created_date : String
  created_by : String
deriving DecidableEq

/-- An invoice row as assembled by `save_invoice_record`
(src/app.py lines 517-528). -/
structure InvoiceRecord where
  invoice_number : String
  customer_id : ℕ
  total_amount : ℚ
  paid_amount : ℚ
  unpaid_amount : ℚ
  status : String
  date : String
  billing_date : String
  created_by : String
  salesman : String
deriving DecidableEq

/-- An invoice item row as assembled by `save_invoice_record`
(src/app.py lines 537-542). -/
structure InvoiceItem where
  invoice_id : ℕ
  product : String
  price : ℚ
  quantity : ℕ
deriving DecidableEq

/-- `save_invoice_record` from src/app.py lines 509-547, modelled as the
pure computation of the two kinds of rows it persists (`db.add_invoice`
and `db.add_invoice_items` append them to the remote tables).
`paid_amount = none` models the Python default `paid_amount=None`, in
which case the code sets `paid_amount = total_amount`.  `today` stands
for `datetime.now().date().isoformat()` and `invoice_id` for the row id
the database assigns to the inserted invoice. -/
def save_invoice_record (customer : Customer) (cart_items : List CartItem)
    (invoice_number : String) (total_amount : ℚ) (paid_amount : Option ℚ)
    (today current_user : String) (invoice_id : ℕ) :
    InvoiceRecord × List InvoiceItem :=
  let paid := paid_amount.getD total_amount
  let unpaid := max 0 (total_amount - paid)
  let status := determine_payment_status total_amount paid
  let invoice_record : InvoiceRecord :=
    { invoice_number := invoice_number
      customer_id := customer.id
      total_amount := total_amount
      paid_amount := paid
      unpaid_amount := unpaid
      status := status
      date := today
      billing_date := today
      created_by := current_user
      salesman := current_user }
  let invoice_items : List InvoiceItem := cart_items.map (fun item =>
    { invoice_id := invoice_id
      product := item.product
      price := item.price
      quantity := item.quantity })
  (invoice_record, invoice_items)

/-- A salesman row (src/app.py lines 348-355 and 649-656).  `password`
holds the stored digest. -/
structure Salesman where
  username : String
  password : String
  role : String
  name : String
  created_date : String
  active : Bool
deriving DecidableEq

/-- The three pieces of login session state set by `login_page`
(src/app.py lines 380-382); defaults from `init_session_state`
(src/app.py lines 50-52). -/
structure SessionState where
  authenticated : Bool
  current_user : Option String
  user_role : Option String
deriving DecidableEq

/-- The session-state defaults of `init_session_state` (src/app.py
lines 50-52). -/
def initSession : SessionState :=
  { authenticated := false, current_user := none, user_role := none }

/-- The login submission handler of `login_page` (src/app.py
lines 372-386, with the bound variable `hashed_password` inlined): hash
the submitted password with the digest function
(`hash_password`, src/app.py lines 326-328, which applies SHA-256; the
digest itself is a standard-library call and is passed here as the
function parameter `hash_password`), linearly scan the salesmen for the
first row with a case-sensitively equal username, an equal stored
digest, and `active` truthy; on a hit set the three session fields and
succeed, otherwise leave the session unchanged and fail. -/
def login_submit (hash_password : String → String) (salesmen : List Salesman)
    (username password : String) (sess : SessionState) :
    SessionState × Bool :=
  match salesmen.find? (fun s =>
      s.username == username && s.password == hash_password password &&
        s.active) with
  | some user =>
      ({ authenticated := true
         current_user := some user.username
         user_role := some user.role }, true)
  | none => (sess, false)

/-- The pre-insert duplicate scan of the Add-New-Salesman form
(src/app.py lines 643-644): `next((s for s in salesmen if s['username']
== new_username), None)` — an exact, case-sensitive comparison. -/
def salesman_duplicate_scan (salesmen : List Salesman)
    (new_username : String) : Option Salesman :=
  salesmen.find? (fun s => s.username == new_username)

/-- The Add-New-Salesman submission handler (src/app.py lines 640-663):
when all three fields are non-empty and the duplicate scan finds
nothing, insert the new row (an insert appends a row to the table);
otherwise leave the table unchanged. -/
def add_salesman_submit (hash_password : String → String)
    (salesmen : List Salesman)
    (new_username new_password new_name new_role created_date : String) :
    List Salesman :=
  if new_username.isEmpty || new_password.isEmpty || new_name.isEmpty then
    salesmen
  else
    match salesman_duplicate_scan salesmen new_username with
    | some _ => salesmen
    | none =>
        salesmen ++ [{ username := new_username
                       password := hash_password new_password
                       role := new_role
                       name := new_name
                       created_date := created_date
                       active := true }]

/-- Python `str.lower`, modelled as lowercasing each character (faithful
on the ASCII names and usernames the forms handle). -/
def pyLower (s : String) : String :=
  String.mk (s.data.map Char.toLower)

/-- The pre-insert duplicate scan of the Add-Customer form (src/app.py
lines 1123-1124): `next((c for c in customers if c['name'].lower() ==
name.lower() or c['phone'] == phone), None)`. -/
def customer_duplicate_scan (customers : List Customer)
    (name phone : String) : Option Customer :=
  customers.find? (fun c =>
    pyLower c.name == pyLower name || c.phone == phone)

/-- The Add-Customer submission handler (src/app.py lines 1119-1148):
when name and phone are non-empty and the duplicate scan finds nothing,
compute the next id as `max(customer_ids) + 1` (with `[0]` when the
table is empty) and insert the new row; otherwise leave the table
unchanged. -/
def add_customer_submit (customers : List Customer)
    (name phone email address created_date current_user : String) :
    List Customer :=
  if name.isEmpty || phone.isEmpty then customers
  else
    match customer_duplicate_scan customers name phone with
    | some _ => customers
    | none =>
        let customer_ids :=
          if customers.isEmpty then [0] else customers.map (fun c => c.id)
        let next_id := customer_ids.foldl max 0 + 1
        customers ++ [{ id := next_id
                        name := name
                        phone := phone
                        email := email
                        address := address
                        created_date := created_date
                        created_by := current_user }]

/-- A product row (src/app.py lines 770-777 and the fields touched by
`update_product` / `delete_product`). -/
structure Product where
  id : ℕ
  product : String
  price : ℚ
  category : Option String
  description : Option String
  active : Bool
  created_date : String
  updated_date : String
deriving DecidableEq

/-- The durable state relevant to products and invoice item snapshots:
the `products` and `invoice_items` tables. -/
structure ProductsDB where
  products : List Product
  invoice_items : List InvoiceItem
deriving DecidableEq

/-- `OptimizedDatabaseManager.delete_product` (src/app.py lines 299-310):
a soft delete that updates the rows matching the id, setting
`active = False` and `updated_date` to the current time, and touches no
other table. -/
def delete_product (db : ProductsDB) (product_id : ℕ) (now : String) :
    ProductsDB :=
  { db with products := db.products.map (fun p =>
      if p.id = product_id then { p with active := false, updated_date := now }
      else p) }

/-- `OptimizedDatabaseManager.get_products` (src/app.py lines 262-276),
cache aside: select the product rows, keeping only `active = True` ones
when `active_only` (the default), ordered by product name. -/
def get_products (db : ProductsDB) (active_only : Bool) : List Product :=
  let rows := if active_only then db.products.filter (fun p => p.active)
              else db.products
  rows.mergeSort (fun a b => a.product ≤ b.product)

/-- `OptimizedDatabaseManager.update_product` restricted to the admin
price edit (src/app.py lines 288-297 with the updates dict of
lines 902-906): rows matching the id get the new price and
`updated_date`. -/
def update_product_price (products : List Product) (product_id : ℕ)
    (new_price : ℚ) (now : String) : List Product :=
  products.map (fun p =>
    if p.id = product_id then { p with price := new_price, updated_date := now }
    else p)

/-- The transient per-session state feeding invoice creation: the live
product rows and the cart of snapshots (src/app.py line 53 and
lines 1264-1269). -/
structure AppState where
  products : List Product
  cart : List CartItem
deriving DecidableEq

/-- The Add-to-Cart snapshot (src/app.py lines 1264-1269): the cart item
copies the product name and price of the selected row and appends to
the cart. -/
def add_to_cart (st : AppState) (p : Product) (quantity : ℕ) : AppState :=
  { st with cart := st.cart ++
      [{ product := p.product, price := p.price, quantity := quantity }] }

/-- The invoice total as computed at invoice-creation time
(src/app.py line 1297): a function of the session cart only. -/
def invoice_creation_total (st : AppState) : ℚ :=
  main_app_total st.cart

/-- A row of a fetched table, as cached.  The cached values in
`st.session_state.data_cache` are lists of rows; the row payload is
abstracted as a type parameter below. -/
structure CacheState (ρ : Type) where
  data_cache : List (String × List ρ)
  last_cache_update : List (String × ℚ)
deriving DecidableEq

/-- `OptimizedDatabaseManager._get_cache_key` (src/app.py lines 72-77):
the table name, extended with an underscore and the hash of the sorted
filter items when filters are present.  The hash of the filter dict is
abstracted as the string carried by `filters`. -/
def get_cache_key (table_name : String) (filters : Option String) : String :=
  match filters with
  | none => table_name
  | some filters_hash => table_name ++ "_" ++ filters_hash

/-- `OptimizedDatabaseManager._is_cache_valid` (src/app.py lines 79-85):
false when the key is absent from `data_cache`; otherwise the age
(current time minus recorded fetch time, defaulting to 0) must be below
the time-to-live. -/
def is_cache_valid (st : CacheState ρ) (cache_key : String) (ttl now : ℚ) :
    Bool :=
  match st.data_cache.lookup cache_key with
  | none => false
  | some _ =>
      decide (now - (st.last_cache_update.lookup cache_key).getD 0 < ttl)

/-- Overwrite-or-add update of an association list, modelling Python
dict assignment. -/
def assocSet (l : List (String × α)) (k : String) (v : α) :
    List (String × α) :=
  (k, v) :: l.filter (fun kv => kv.1 ≠ k)

/-- `OptimizedDatabaseManager._cache_data` (src/app.py lines 87-90):
store the data under the key and record the fetch time. -/
def cache_data (st : CacheState ρ) (cache_key : String) (data : List ρ)
    (now : ℚ) : CacheState ρ :=
  { data_cache := assocSet st.data_cache cache_key data
    last_cache_update := assocSet st.last_cache_update cache_key now }

/-- `OptimizedDatabaseManager._get_cached_or_fetch` (src/app.py
lines 92-103): return the cached value when the cache is valid,
otherwise call through to the data store (`fetch`, where `none` models
the exception path that reports an error and returns `[]` without
caching) and cache the fresh result. -/
def get_cached_or_fetch (st : CacheState ρ) (cache_key : String)
    (fetch : Option (List ρ)) (ttl now : ℚ) : List ρ × CacheState ρ :=
  if is_cache_valid st cache_key ttl now then
    ((st.data_cache.lookup cache_key).getD [], st)
  else
    match fetch with
    | some data => (data, cache_data st cache_key data now)
    | none => ([], st)

/-- Python `str.startswith`, modelled as the prefix test on the
character lists: `pyStartswith k t` is `k.startswith(t)`. -/
def pyStartswith (s pre : String) : Bool :=
  pre.data.isPrefixOf s.data

/-- `OptimizedDatabaseManager.invalidate_cache` with a table name
(src/app.py lines 105-112): collect every `data_cache` key that starts
with the table name, delete those keys from `data_cache`, and delete
them from `last_cache_update` where present. -/
def invalidate_cache (st : CacheState ρ) (table_name : String) :
    CacheState ρ :=
  let keys_to_remove :=
    (st.data_cache.filter (fun kv => pyStartswith kv.1 table_name)).map
      (fun kv => kv.1)
  { data_cache :=
      st.data_cache.filter (fun kv => !(pyStartswith kv.1 table_name))
    last_cache_update :=
      st.last_cache_update.filter (fun kv => !(keys_to_remove.contains kv.1)) }

/-- The cache effect shared by every table write in
`OptimizedDatabaseManager` (`add_salesman`, `update_salesman`,
`delete_salesman`, `add_customer`, `add_invoice`, `delete_invoice`,
`add_product`, `update_product`, `delete_product`, `bulk_add_products`,
src/app.py lines 131-320): after the data-store insert/update/delete the
manager calls `invalidate_cache(table_name)`. -/
def write_table_cache_effect (st : CacheState ρ) (table_name : String) :
    CacheState ρ :=
  invalidate_cache st table_name

/-- A concrete hash function standing in for `hash_password`
(src/app.py lines 326-328) in concrete evaluations; the application
treats the digest function as an opaque string-to-string map. -/
def sampleHash (s : String) : String := s ++ "*"

/-- A concrete customer row used in concrete evaluations. -/
def sampleCustomer : Customer :=
  { id := 1, name := "Ali", phone := "123", email := "", address := ""
    created_date := "2026-01-01", created_by := "admin" }

/-- A concrete salesman row used in concrete evaluations. -/
def adminRow : Salesman :=
  { username := "admin", password := sampleHash "admin123", role := "admin"
    name := "Administrator", created_date := "2026-01-01", active := true }

/-- A concrete cart item (the Pen example of the specification,
1.50 × 4). -/
def penItem : CartItem := { product := "Pen", price := 3/2, quantity := 4 }

/-- A concrete cart item (the Notebook example of the specification,
3.00 × 2). -/
def notebookItem : CartItem := { product := "Notebook", price := 3, quantity := 2 }

/-- A concrete product row used in concrete evaluations. -/
def sampleProduct : Product :=
  { id := 1, product := "Pen", price := 3/2, category := none
    description := none, active := true, created_date := "2026-01-01"
    updated_date := "2026-01-01" }

/-- A second concrete product row used in concrete evaluations. -/
def sampleProduct2 : Product :=
  { id := 2, product := "Notebook", price := 3, category := none
    description := none, active := true, created_date := "2026-01-01"
    updated_date := "2026-01-01" }

/-- A concrete invoice item snapshot used in concrete evaluations. -/
def sampleSnapshot : InvoiceItem :=
  { invoice_id := 7, product := "Pen", price := 3/2, quantity := 4 }

/-- A concrete products-and-snapshots database state used in concrete
evaluations. -/
def sampleDB : ProductsDB :=
  { products := [sampleProduct, sampleProduct2]
    invoice_items := [sampleSnapshot] }

/-- C1 counterexample: at `total = 0, paid = 0` the hypothesis
`paid ≤ 0` of the claimed unpaid clause holds, yet
`determine_payment_status` returns the fully-paid string, not the
unpaid one: the first branch `paid >= total` wins. -/
theorem payment_status_zero_cex :
    ((0 : ℚ) ≤ 0) ∧ determine_payment_status 0 0 = fullyPaidStatus ∧
      determine_payment_status 0 0 ≠ unpaidStatus := by
  decide

/-- C1 (amended): `determine_payment_status` returns fully-paid when
`paid ≥ total`, partially-paid when `0 < paid < total`, and unpaid when
`paid ≤ 0` and `paid < total`; in particular `paid = total` is fully
paid and `paid = 0` is unpaid whenever `0 < total`. -/
theorem payment_status_classification (total paid : ℚ) :
    (total ≤ paid → determine_payment_status total paid = fullyPaidStatus) ∧
    (0 < paid ∧ paid < total →
      determine_payment_status total paid = partiallyPaidStatus) ∧
    (paid ≤ 0 ∧ paid < total →
      determine_payment_status total paid = unpaidStatus) ∧
    (paid = total → determine_payment_status total paid = fullyPaidStatus) ∧
    (paid = 0 ∧ 0 < total →
      determine_payment_status total paid = unpaidStatus) := by
  unfold determine_payment_status
  refine ⟨fun h => ?_, fun h => ?_, fun h => ?_, fun h => ?_, fun h => ?_⟩
  · rw [if_pos h]
  · rw [if_neg (not_le.mpr h.2), if_pos h.1]
  · rw [if_neg (not_le.mpr h.2), if_neg (not_lt.mpr h.1)]
  · rw [if_pos (le_of_eq h.symm)]
  · obtain ⟨h0, ht⟩ := h
    subst h0
    rw [if_neg (not_le.mpr ht), if_neg (lt_irrefl 0)]

/-- C1 witness: the three classification clauses evaluated at
`total = 10` with `paid = 10`, `4`, `0`. -/
theorem payment_status_classification_witness :
    determine_payment_status 10 10 = fullyPaidStatus ∧
    determine_payment_status 10 4 = partiallyPaidStatus ∧
    determine_payment_status 10 0 = unpaidStatus :=
  ⟨(payment_status_classification 10 10).1 (by decide),
   (payment_status_classification 10 4).2.1 ⟨by decide, by decide⟩,
   (payment_status_classification 10 0).2.2.2.2 ⟨rfl, by decide⟩⟩

/-- C3: for every invoice created by `save_invoice_record` with
arbitrary total and paid amounts, the persisted row carries
`paid_amount` as supplied, `unpaid_amount = max 0 (total - paid)`, and
`status = determine_payment_status total paid`; the functional model
computes these fields exactly once, when the row is built. -/
theorem save_invoice_record_invariants (customer : Customer)
    (cart_items : List CartItem) (invoice_number : String)
    (total_amount paid_amount : ℚ) (today current_user : String)
    (invoice_id : ℕ) :
    (save_invoice_record customer cart_items invoice_number total_amount
        (some paid_amount) today current_user invoice_id).1.paid_amount =
      paid_amount ∧
    (save_invoice_record customer cart_items invoice_number total_amount
        (some paid_amount) today current_user invoice_id).1.unpaid_amount =
      max 0 (total_amount - paid_amount) ∧
    (save_invoice_record customer cart_items invoice_number total_amount
        (some paid_amount) today current_user invoice_id).1.status =
      determine_payment_status total_amount paid_amount :=
  ⟨rfl, rfl, rfl⟩

/-- C4 counterexample: at `total = 10, paid = -5` the hypothesis
`paid ≤ 0` holds and the status is indeed unpaid, but the persisted
`unpaid_amount` is `max 0 (10 - (-5)) = 15`, not the claimed
`total = 10`. -/
theorem unpaid_amount_negative_paid_cex :
    ((-5 : ℚ) ≤ 0) ∧
    determine_payment_status 10 (-5) = unpaidStatus ∧
    (save_invoice_record sampleCustomer [] "INV-1" 10 (some (-5))
        "2026-01-01" "admin" 1).1.unpaid_amount ≠ 10 := by
  refine ⟨by decide, by decide, ?_⟩
  show max 0 ((10 : ℚ) - -5) ≠ 10
  rw [max_def]
  norm_num

/-- C4 (amended): for `paid ≤ 0 < total` the classification is unpaid
and the persisted `unpaid_amount` equals `total - paid`; in the
boundary case `paid = 0` this is exactly `total`. -/
theorem unpaid_classification_amended (total paid : ℚ) (customer : Customer)
    (cart_items : List CartItem)
    (invoice_number today current_user : String) (invoice_id : ℕ)
    (hpaid : paid ≤ 0) (htotal : 0 < total) :
    determine_payment_status total paid = unpaidStatus ∧
    (save_invoice_record customer cart_items invoice_number total (some paid)
        today current_user invoice_id).1.unpaid_amount = total - paid ∧
    (paid = 0 →
      (save_invoice_record customer cart_items invoice_number total
          (some paid) today current_user invoice_id).1.unpaid_amount =
        total) := by
  have hlt : paid < total := lt_of_le_of_lt hpaid htotal
  refine ⟨?_, ?_, fun h0 => ?_⟩
  · unfold determine_payment_status
    rw [if_neg (not_le.mpr hlt), if_neg (not_lt.mpr hpaid)]
  · show max 0 (total - paid) = total - paid
    exact max_eq_right (by linarith)
  · show max 0 (total - paid) = total
    rw [h0, sub_zero]
    exact max_eq_right htotal.le

/-- C4 witness: the amended statement evaluated at `total = 10`,
`paid = 0`. -/
theorem unpaid_classification_amended_witness :
    determine_payment_status 10 0 = unpaidStatus ∧
    (save_invoice_record sampleCustomer [penItem] "INV-1" 10 (some 0)
        "2026-01-01" "admin" 1).1.unpaid_amount = 10 :=
  ⟨(unpaid_classification_amended 10 0 sampleCustomer [penItem] "INV-1"
      "2026-01-01" "admin" 1 (by decide) (by decide)).1,
   (unpaid_classification_amended 10 0 sampleCustomer [penItem] "INV-1"
      "2026-01-01" "admin" 1 (by decide) (by decide)).2.2 rfl⟩

/-- C10: calling `save_invoice_record` with no paid amount
(`paid_amount = None`) persists the invoice as fully paid:
`paid_amount = total`, `unpaid_amount = 0`, and the fully-paid status
string. -/
theorem save_invoice_record_none_fully_paid (customer : Customer)
    (cart_items : List CartItem) (invoice_number : String) (total : ℚ)
    (today current_user : String) (invoice_id : ℕ)
    (hcart : cart_items ≠ []) :
    (save_invoice_record customer cart_items invoice_number total none today
        current_user invoice_id).1.paid_amount = total ∧
    (save_invoice_record customer cart_items invoice_number total none today
        current_user invoice_id).1.unpaid_amount = 0 ∧
    (save_invoice_record customer cart_items invoice_number total none today
        current_user invoice_id).1.status = fullyPaidStatus := by
  refine ⟨rfl, ?_, ?_⟩
  · show max 0 (total - total) = 0
    simp
  · show determine_payment_status total total = fullyPaidStatus
    unfold determine_payment_status
    rw [if_pos le_rfl]

/-- C10 witness: the default-payment rule evaluated on a one-item cart
with `total = 12`. -/
theorem save_invoice_record_none_fully_paid_witness :
    (save_invoice_record sampleCustomer [penItem] "INV-2" 12 none
        "2026-01-01" "admin" 2).1.paid_amount = 12 ∧
    (save_invoice_record sampleCustomer [penItem] "INV-2" 12 none
        "2026-01-01" "admin" 2).1.unpaid_amount = 0 ∧
    (save_invoice_record sampleCustomer [penItem] "INV-2" 12 none
        "2026-01-01" "admin" 2).1.status = fullyPaidStatus :=
  save_invoice_record_none_fully_paid sampleCustomer [penItem] "INV-2" 12
    "2026-01-01" "admin" 2 (List.cons_ne_nil _ _)

/-- C2: for every non-empty cart of positive-quantity items, the total
computed by `generate_whatsapp_invoice_text`, the total displayed by
`main_app`, and the persisted `total_amount` all equal
`Σ price_i × quantity_i` over the cart snapshots; the persisted invoice
items are exactly the cart snapshots; and the invoice-creation total is
a function of the session cart alone, unchanged under any replacement
of the live product rows. -/
theorem invoice_total_is_snapshot_sum (cart : List CartItem)
    (customer : Customer) (invoice_number today current_user : String)
    (paid : Option ℚ) (invoice_id : ℕ)
    (hne : cart ≠ []) (hq : ∀ item ∈ cart, 0 < item.quantity) :
    generate_whatsapp_invoice_total cart =
      (cart.map (fun item => item.price * (item.quantity : ℚ))).sum ∧
    main_app_total cart =
      (cart.map (fun item => item.price * (item.quantity : ℚ))).sum ∧
    (save_invoice_record customer cart invoice_number
        (generate_whatsapp_invoice_total cart) paid today current_user
        invoice_id).1.total_amount =
      (cart.map (fun item => item.price * (item.quantity : ℚ))).sum ∧
    (save_invoice_record customer cart invoice_number
        (generate_whatsapp_invoice_total cart) paid today current_user
        invoice_id).2.map (fun it => (it.product, it.price, it.quantity)) =
      cart.map (fun item => (item.product, item.price, item.quantity)) ∧
    (∀ products products' : List Product,
      invoice_creation_total { products := products, cart := cart } =
        invoice_creation_total { products := products', cart := cart }) := by
  have hgen : generate_whatsapp_invoice_total cart =
      (cart.map (fun item => item.price * (item.quantity : ℚ))).sum := by
    unfold generate_whatsapp_invoice_total
    congr 1
    exact List.map_congr_left (fun item _ => mul_comm _ _)
  refine ⟨hgen, rfl, hgen, ?_, fun products products' => rfl⟩
  show (cart.map (fun item =>
      ({ invoice_id := invoice_id, product := item.product
         price := item.price, quantity := item.quantity } : InvoiceItem))).map
      (fun it => (it.product, it.price, it.quantity)) = _
  rw [List.map_map]
  rfl

/-- C2 witness: the totals evaluated on the specification's example
cart (Pen 1.50 × 4, Notebook 3.00 × 2). -/
theorem invoice_total_is_snapshot_sum_witness :
    generate_whatsapp_invoice_total [penItem, notebookItem] =
      ([penItem, notebookItem].map
        (fun item => item.price * (item.quantity : ℚ))).sum ∧
    main_app_total [penItem, notebookItem] =
      ([penItem, notebookItem].map
        (fun item => item.price * (item.quantity : ℚ))).sum :=
  ⟨(invoice_total_is_snapshot_sum [penItem, notebookItem] sampleCustomer
      "INV-3" "2026-01-01" "admin" none 3 (List.cons_ne_nil _ _)
      (by decide)).1,
   (invoice_total_is_snapshot_sum [penItem, notebookItem] sampleCustomer
      "INV-3" "2026-01-01" "admin" none 3 (List.cons_ne_nil _ _)
      (by decide)).2.1⟩

/-- C5: login succeeds iff some salesman row has a case-sensitively
equal username, a stored password equal to the digest of the submitted
password, and `active = true`; on success the authenticated flag,
current username and role are set from the matched row, and on failure
the session state is left unchanged (only the generic error message is
shown). -/
theorem login_contract (hash_password : String → String)
    (salesmen : List Salesman) (username password : String)
    (sess : SessionState) :
    ((login_submit hash_password salesmen username password sess).2 = true ↔
      ∃ s ∈ salesmen, s.username = username ∧
        s.password = hash_password password ∧ s.active = true) ∧
    ((login_submit hash_password salesmen username password sess).2 = true →
      (login_submit hash_password salesmen username password
          sess).1.authenticated = true ∧
      ∃ s ∈ salesmen, s.username = username ∧
        s.password = hash_password password ∧ s.active = true ∧
        (login_submit hash_password salesmen username password
            sess).1.current_user = some s.username ∧
        (login_submit hash_password salesmen username password
            sess).1.user_role = some s.role) ∧
    ((login_submit hash_password salesmen username password sess).2 = false →
      (login_submit hash_password salesmen username password sess).1 =
        sess) := by
  cases hfind : salesmen.find? (fun s =>
      s.username == username && s.password == hash_password password &&
        s.active) with
  | none =>
      have hall := List.find?_eq_none.mp hfind
      have hres : login_submit hash_password salesmen username password
          sess = (sess, false) := by
        unfold login_submit
        rw [hfind]
      rw [hres]
      refine ⟨?_, ?_, fun _ => rfl⟩
      · constructor
        · intro h
          simp at h
        · rintro ⟨s, hs, h1, h2, h3⟩
          have := hall s hs
          simp [h1, h2, h3] at this
      · intro h
        simp at h
  | some user =>
      have hmem : user ∈ salesmen := List.mem_of_find?_eq_some hfind
      have hpred := List.find?_some hfind
      simp only [Bool.and_eq_true, beq_iff_eq] at hpred
      obtain ⟨⟨h1, h2⟩, h3⟩ := hpred
      have hres : login_submit hash_password salesmen username password
          sess =
          ({ authenticated := true, current_user := some user.username
             user_role := some user.role }, true) := by
        unfold login_submit
        rw [hfind]
      rw [hres]
      refine ⟨⟨fun _ => ⟨user, hmem, h1, h2, h3⟩, fun _ => rfl⟩,
        fun _ => ⟨rfl, user, hmem, h1, h2, h3, rfl, rfl⟩, fun h => ?_⟩
      simp at h

/-- C5 witness: a one-row salesman table with the seeded admin
credentials; login with the right password succeeds and sets the
authenticated flag. -/
theorem login_contract_witness :
    (login_submit sampleHash [adminRow] "admin" "admin123"
        initSession).2 = true ∧
    (login_submit sampleHash [adminRow] "admin" "admin123"
        initSession).1.authenticated = true := by
  have h := login_contract sampleHash [adminRow] "admin" "admin123"
    initSession
  have hsucc : (login_submit sampleHash [adminRow] "admin" "admin123"
      initSession).2 = true :=
    h.1.mpr ⟨adminRow, List.mem_singleton.mpr rfl, rfl, rfl, rfl⟩
  exact ⟨hsucc, (h.2.1 hsucc).1⟩

/-- C6: a new-customer submission with non-empty name and phone is
rejected — the customers table is left unchanged, no insert happens —
whenever some existing customer matches case-insensitively on name or
exactly on phone, regardless of the other field. -/
theorem customer_duplicate_rejected (customers : List Customer)
    (name phone email address created_date current_user : String)
    (hname : name.isEmpty = false) (hphone : phone.isEmpty = false)
    (hdup : ∃ c ∈ customers,
      pyLower c.name = pyLower name ∨ c.phone = phone) :
    add_customer_submit customers name phone email address created_date
      current_user = customers := by
  obtain ⟨c, hc, hor⟩ := hdup
  have hpred : (pyLower c.name == pyLower name || c.phone == phone) =
      true := by
    cases hor with
    | inl h => simp [h]
    | inr h => simp [h]
  have hsome : (customer_duplicate_scan customers name phone).isSome := by
    unfold customer_duplicate_scan
    exact List.find?_isSome.mpr ⟨c, hc, hpred⟩
  obtain ⟨c0, hfind⟩ := Option.isSome_iff_exists.mp hsome
  have hcond : (name.isEmpty || phone.isEmpty) = false := by
    rw [hname, hphone]
    rfl
  unfold add_customer_submit
  rw [hcond, if_neg (by simp), hfind]

/-- C6 witness: a same-name-different-case, different-phone submission
against a one-customer table is rejected. -/
theorem customer_duplicate_rejected_witness :
    add_customer_submit [sampleCustomer] "ALI" "999" "" "" "2026-01-02"
      "admin" = [sampleCustomer] :=
  customer_duplicate_rejected [sampleCustomer] "ALI" "999" "" ""
    "2026-01-02" "admin" rfl rfl
    ⟨sampleCustomer, List.mem_singleton.mpr rfl, Or.inl (by decide)⟩

/-- C7 counterexample: the salesman duplicate scan compares usernames
exactly, so "Admin" against an existing "admin" — a case-insensitive
match — is not found by the scan and the insert goes through, growing
the table. -/
theorem salesman_case_insensitive_cex :
    pyLower "Admin" = pyLower adminRow.username ∧
    salesman_duplicate_scan [adminRow] "Admin" = none ∧
    add_salesman_submit sampleHash [adminRow] "Admin" "pw" "Second Admin"
        "salesman" "2026-01-02" ≠ [adminRow] := by
  decide

/-- C7 (amended): the pre-insert duplicate scan on salesmen is an
exact, case-sensitive username comparison: a submission whose username
exactly equals an existing one is rejected and not inserted. -/
theorem salesman_duplicate_exact_rejected (hash_password : String → String)
    (salesmen : List Salesman)
    (new_username new_password new_name new_role created_date : String)
    (hu : new_username.isEmpty = false) (hp : new_password.isEmpty = false)
    (hn : new_name.isEmpty = false)
    (hdup : ∃ s ∈ salesmen, s.username = new_username) :
    add_salesman_submit hash_password salesmen new_username new_password
      new_name new_role created_date = salesmen := by
  obtain ⟨s, hs, heq⟩ := hdup
  have hsome : (salesman_duplicate_scan salesmen new_username).isSome := by
    unfold salesman_duplicate_scan
    exact List.find?_isSome.mpr ⟨s, hs, by simp [heq]⟩
  obtain ⟨s0, hfind⟩ := Option.isSome_iff_exists.mp hsome
  have hcond : (new_username.isEmpty || new_password.isEmpty ||
      new_name.isEmpty) = false := by
    rw [hu, hp, hn]
    rfl
  unfold add_salesman_submit
  rw [hcond, if_neg (by simp), hfind]

/-- C7 witness: submitting the exact existing username "admin" leaves
the salesmen table unchanged. -/
theorem salesman_duplicate_exact_rejected_witness :
    add_salesman_submit sampleHash [adminRow] "admin" "pw2" "Clone"
      "admin" "2026-01-03" = [adminRow] :=
  salesman_duplicate_exact_rejected sampleHash [adminRow] "admin" "pw2"
    "Clone" "admin" "2026-01-03" rfl rfl rfl
    ⟨adminRow, List.mem_singleton.mpr rfl, rfl⟩

/-- Helper: a cache key built from a table name starts with that table
name, with or without a filter-hash suffix. -/
theorem get_cache_key_startswith (table_name : String)
    (filters : Option String) :
    pyStartswith (get_cache_key table_name filters) table_name = true := by
  cases filters with
  | none =>
      simp [pyStartswith, get_cache_key, List.isPrefixOf_iff_prefix]
  | some filters_hash =>
      simp only [pyStartswith, get_cache_key, List.isPrefixOf_iff_prefix,
        String.data_append, List.append_assoc]
      exact List.prefix_append _ _

/-- Helper: after filtering out every entry whose key starts with the
table name, no key that starts with the table name can be looked up. -/
theorem lookup_filter_startswith_none (l : List (String × α))
    (table_name k : String) (hk : pyStartswith k table_name = true) :
    (l.filter (fun kv => !(pyStartswith kv.1 table_name))).lookup k =
      none := by
  induction l with
  | nil => rfl
  | cons kv rest ih =>
      cases hb : pyStartswith kv.1 table_name with
      | true => simpa [List.filter_cons, hb] using ih
      | false =>
          have hne : (k == kv.1) = false := by
            rw [beq_eq_false_iff_ne]
            intro he
            rw [← he, hk] at hb
            exact absurd hb (by simp)
          simp [List.filter_cons, hb, List.lookup, hne, ih]

/-- C8: writing to a table and then immediately reading it through the
cached read path always returns the freshly fetched (post-write) value,
for every filter, time-to-live, and clock value: the write removes
every cache entry whose key is prefixed by the table name, so the key
of the read is absent from the cache and the fetch is re-executed. -/
theorem cache_read_after_write_fresh (st : CacheState ρ)
    (table_name : String) (filters : Option String) (fresh : List ρ)
    (ttl now : ℚ) :
    ((write_table_cache_effect st table_name).data_cache.lookup
        (get_cache_key table_name filters)) = none ∧
    (get_cached_or_fetch (write_table_cache_effect st table_name)
        (get_cache_key table_name filters) (some fresh) ttl now).1 =
      fresh := by
  have hnone : ((write_table_cache_effect st table_name).data_cache.lookup
      (get_cache_key table_name filters)) = none := by
    show ((st.data_cache.filter
        (fun kv => !(pyStartswith kv.1 table_name))).lookup
        (get_cache_key table_name filters)) = none
    exact lookup_filter_startswith_none _ _ _
      (get_cache_key_startswith table_name filters)
  refine ⟨hnone, ?_⟩
  have hvalid : is_cache_valid (write_table_cache_effect st table_name)
      (get_cache_key table_name filters) ttl now = false := by
    unfold is_cache_valid
    rw [hnone]
  unfold get_cached_or_fetch
  rw [hvalid]
  simp

/-- C9: the soft delete of a product updates the matching rows to
`active = false` with a new `updated_date`, leaving every other field
and every other row unchanged; the product then no longer appears in
the default active-only listing; and the stored invoice item snapshots
are untouched. -/
theorem delete_product_soft_delete (db : ProductsDB) (product_id : ℕ)
    (now : String) :
    (∀ p ∈ (delete_product db product_id now).products,
      p.id = product_id →
        p.active = false ∧ ∃ q ∈ db.products, q.id = product_id ∧
          p = { q with active := false, updated_date := now }) ∧
    (∀ p ∈ (delete_product db product_id now).products,
      p.id ≠ product_id → p ∈ db.products) ∧
    (∀ p ∈ get_products (delete_product db product_id now) true,
      p.id ≠ product_id) ∧
    (delete_product db product_id now).invoice_items =
      db.invoice_items := by
  refine ⟨?_, ?_, ?_, rfl⟩
  · intro p hp hid
    obtain ⟨q, hq, hpq⟩ := List.mem_map.mp hp
    by_cases h : q.id = product_id
    · rw [if_pos h] at hpq
      subst hpq
      exact ⟨rfl, q, hq, h, rfl⟩
    · rw [if_neg h] at hpq
      subst hpq
      exact absurd hid h
  · intro p hp hid
    obtain ⟨q, hq, hpq⟩ := List.mem_map.mp hp
    by_cases h : q.id = product_id
    · rw [if_pos h] at hpq
      subst hpq
      exact absurd h hid
    · rw [if_neg h] at hpq
      subst hpq
      exact hq
  · intro p hp
    have hp1 : p ∈ ((delete_product db product_id now).products.filter
        (fun r => r.active)).mergeSort (fun a b => a.product ≤ b.product) :=
      hp
    rw [List.mem_mergeSort] at hp1
    have hmem := (List.mem_filter.mp hp1).1
    have hact := (List.mem_filter.mp hp1).2
    intro hid
    obtain ⟨q, hq, hpq⟩ := List.mem_map.mp hmem
    by_cases h : q.id = product_id
    · rw [if_pos h] at hpq
      subst hpq
      simp at hact
    · rw [if_neg h] at hpq
      subst hpq
      exact h hid

/-- C9 witness: soft-deleting product 1 in the sample database keeps
the snapshots intact and removes product 1 from the active-only
listing. -/
theorem delete_product_soft_delete_witness :
    (delete_product sampleDB 1 "2026-01-02").invoice_items =
      sampleDB.invoice_items ∧
    (∀ p ∈ get_products (delete_product sampleDB 1 "2026-01-02") true,
      p.id ≠ 1) :=
  ⟨(delete_product_soft_delete sampleDB 1 "2026-01-02").2.2.2,
   (delete_product_soft_delete sampleDB 1 "2026-01-02").2.2.1⟩

end ScoutInventory
